import Mathlib

/-!
Verification of the Genode.IoC dependency-injection container
(src/include/Genode/Context.hpp) against its specification.

The development is a shallow embedding of the header:

* Constructor-signature deduction (priv::GetConstructorParameterCount,
  priv::Constructible) is modelled over an oracle ctorOk : Nat → Bool, where
  ctorOk a abstracts the compile-time fact that the SFINAE probe
  decltype(T(priv::c_op<T, Ns>{}...), 0) with a placeholder arguments is
  well-formed, i.e. that exactly one constructor overload of T is
  unambiguously selectable at arity a (ambiguity or absence of a viable
  overload both make the probe ill-formed, so ctorOk a is false there).

* The container (Gx::Context) is modelled as a pair of type-indexed partial
  maps (m_instances, m_factories).  Concrete C++ objects are represented by
  numeric ids handed out by a monotone allocator, so handle identity is id
  equality; a std::unique_ptr<T> handle is an Option Nat (none models the
  null pointer).  Builders (Context::Builder<T> closures) are modelled by
  the BuilderSpec inductive: a builder that returns null, a builder that
  constructs a fresh object, and the auto-wiring builder produced by
  Context::As<T>.  Execution is a fuel-indexed interpreter exec; fuel
  exhaustion (Res.diverge) models the non-termination that the C++ exhibits
  on cyclic dependency graphs, and Res.raised models a thrown
  std::runtime_error.  A ghost trace (Event list) records parameter
  resolutions and completed constructions in order; it instruments the
  model and has no counterpart in the header.
-/

namespace Gx
namespace priv

/-- The number of parameters supported (priv::MaxParameterCount). -/
def MaxParameterCount : Nat := 100

/-- Fuel-free rendering of the recursion of
priv::GetConstructorParameterCount (Context.hpp lines 87-106): starting at
arity a with remaining = MaxParameterCount - a probes left, the (int)
overload returns the current arity when the SFINAE probe ctorOk succeeds;
otherwise the variadic overload recurses at arity a+1 while
sizeof...(Ns) < MaxParameterCount holds, and returns the current arity once
the bound is reached.  (The overload taking
std::integral_constant<int, MaxParameterCount> is never viable for the
actual int argument 0 and is dead code.) -/
def GetConstructorParameterCountAux (ctorOk : Nat → Bool) : Nat → Nat → Nat
  | 0, a => a
  | r + 1, a => if ctorOk a then a else GetConstructorParameterCountAux ctorOk r (a + 1)

/-- priv::GetConstructorParameterCount<T>(0): the probe starts at arity 0. -/
def GetConstructorParameterCount (ctorOk : Nat → Bool) : Nat :=
  GetConstructorParameterCountAux ctorOk MaxParameterCount 0

/-- priv::Constructible<T>::value (Context.hpp lines 112-118):
not abstract, and default-constructible or a constructor signature found at
arity below MaxParameterCount. -/
def Constructible (isAbstract isDefaultConstructible : Bool) (ctorOk : Nat → Bool) : Bool :=
  !isAbstract &&
    (isDefaultConstructible || decide (GetConstructorParameterCount ctorOk < MaxParameterCount))

/-- Models the overload selection for the no-builder Provide<T>(Scope)
(Context.hpp lines 136-146): std::enable_if_t selects the auto-wiring
overload exactly when Constructible holds (result none); otherwise the
rejecting overload is chosen, whose static_assert fires with the quoted
message at compile time. -/
def ProvideOverloadDiagnostic (isAbstract isDefaultConstructible : Bool)
    (ctorOk : Nat → Bool) : Option String :=
  if Constructible isAbstract isDefaultConstructible ctorOk then none
  else
    some "Use Provide<T>(Builder<T>, Scope) instead for interface or complex constructible type."

theorem gcpcAux_hit (ctorOk : Nat → Bool) :
    ∀ r a t, a ≤ t → t ≤ a + r → ctorOk t = true →
      (∀ b, a ≤ b → b < t → ctorOk b = false) →
      GetConstructorParameterCountAux ctorOk r a = t := by
  intro r
  induction r with
  | zero =>
    intro a t hat hta hok _
    have : a = t := Nat.le_antisymm hat (by simpa using hta)
    subst this
    simp [GetConstructorParameterCountAux]
  | succ r ih =>
    intro a t hat hta hok hmin
    by_cases h : ctorOk a = true
    · have : a = t := by
        rcases Nat.lt_or_ge a t with hlt | hge
        · have := hmin a (Nat.le_refl a) hlt
          rw [h] at this
          exact absurd this (by simp)
        · exact Nat.le_antisymm hat hge
      subst this
      simp [GetConstructorParameterCountAux, h]
    · have hne : a ≠ t := fun he => h (he ▸ hok)
      have hlt : a < t := Nat.lt_of_le_of_ne hat hne
      have step : GetConstructorParameterCountAux ctorOk (r + 1) a
          = GetConstructorParameterCountAux ctorOk r (a + 1) := by
        simp [GetConstructorParameterCountAux, h]
      rw [step]
      exact ih (a + 1) t hlt (by omega) hok (fun b hb1 hb2 => hmin b (by omega) hb2)

theorem gcpcAux_le (ctorOk : Nat → Bool) :
    ∀ r a t, a ≤ t → t ≤ a + r → ctorOk t = true →
      GetConstructorParameterCountAux ctorOk r a ≤ t := by
  intro r
  induction r with
  | zero =>
    intro a t hat hta _
    have : a = t := Nat.le_antisymm hat (by simpa using hta)
    subst this
    simp [GetConstructorParameterCountAux]
  | succ r ih =>
    intro a t hat hta hok
    by_cases h : ctorOk a = true
    · simpa [GetConstructorParameterCountAux, h] using hat
    · have hne : a ≠ t := fun he => h (he ▸ hok)
      simp only [GetConstructorParameterCountAux, h, if_false]
      exact ih (a + 1) t (by omega) (by omega) hok

theorem gcpcAux_hit_or (ctorOk : Nat → Bool) :
    ∀ r a, ctorOk (GetConstructorParameterCountAux ctorOk r a) = true ∨
      GetConstructorParameterCountAux ctorOk r a = a + r := by
  intro r
  induction r with
  | zero => intro a; right; simp [GetConstructorParameterCountAux]
  | succ r ih =>
    intro a
    by_cases h : ctorOk a = true
    · left; simp [GetConstructorParameterCountAux, h]
    · rcases ih (a + 1) with hl | hr
      · left; simpa [GetConstructorParameterCountAux, h] using hl
      · right
        have step : GetConstructorParameterCountAux ctorOk (r + 1) a
            = GetConstructorParameterCountAux ctorOk r (a + 1) := by
          simp [GetConstructorParameterCountAux, h]
        rw [step, hr]
        omega

theorem gcpc_lt_iff (ctorOk : Nat → Bool) :
    GetConstructorParameterCount ctorOk < MaxParameterCount ↔
      ∃ a, a < MaxParameterCount ∧ ctorOk a = true := by
  constructor
  · intro hlt
    rcases gcpcAux_hit_or ctorOk MaxParameterCount 0 with hok | heq
    · exact ⟨GetConstructorParameterCount ctorOk, hlt, hok⟩
    · rw [GetConstructorParameterCount] at hlt
      omega
  · rintro ⟨a, ha, hok⟩
    have := gcpcAux_le ctorOk MaxParameterCount 0 a (Nat.zero_le a) (by omega) hok
    rw [GetConstructorParameterCount]
    omega

end priv

/-- The SFINAE oracle of a class with an unambiguous 0-ary constructor, an
ambiguous pair of 1-ary overloads (the probe fails at arity 1, so the
oracle is false there) and an unambiguous 3-ary constructor. -/
def exampleCtorOk : Nat → Bool :=
  fun a => a == 0 || a == 3

/-- C6: constructor-signature deduction selects the smallest arity a in
0..MaxParameterCount at which exactly one constructor overload is
unambiguously selectable (ctorOk a); any arity where the probe fails,
including by ambiguity, is skipped and the probe continues upward.  In
particular, a class with an unambiguous 0-ary constructor, an ambiguous
pair of 1-ary overloads and an unambiguous 3-ary constructor is deduced at
arity 0, never 1 or 3. -/
theorem signature_deduction_smallest_arity :
    (∀ (ctorOk : Nat → Bool) (a : Nat),
        a ≤ priv.MaxParameterCount → ctorOk a = true →
        (∀ b, b < a → ctorOk b = false) →
        priv.GetConstructorParameterCount ctorOk = a)
    ∧ priv.GetConstructorParameterCount exampleCtorOk = 0
    ∧ exampleCtorOk 0 = true ∧ exampleCtorOk 1 = false ∧ exampleCtorOk 3 = true := by
  refine ⟨?_, by decide, by decide, by decide, by decide⟩
  intro ctorOk a hmax hok hmin
  exact priv.gcpcAux_hit ctorOk priv.MaxParameterCount 0 a (Nat.zero_le a)
    (by simpa [priv.MaxParameterCount] using hmax) hok (fun b _ hb => hmin b hb)

theorem signature_deduction_smallest_arity_witness :
    priv.GetConstructorParameterCount (fun a => a == 2) = 2 :=
  signature_deduction_smallest_arity.1 (fun a => a == 2) 2 (by decide) (by decide)
    (by decide)

/-- C7: Constructible holds exactly when the type is not abstract and is
default-constructible or a constructor signature is found at arity below
MaxParameterCount (equivalently: the probe succeeds at some arity below the
bound); the no-argument Provide<T>() overload is accepted exactly for
Constructible types, and for non-Constructible types the compile-time
rejection carries the message directing the caller to the explicit-builder
overload. -/
theorem constructible_characterization :
    ∀ (isAbstract isDefaultConstructible : Bool) (ctorOk : Nat → Bool),
      (priv.Constructible isAbstract isDefaultConstructible ctorOk = true ↔
        (isAbstract = false ∧ (isDefaultConstructible = true ∨
          priv.GetConstructorParameterCount ctorOk < priv.MaxParameterCount)))
      ∧ (priv.GetConstructorParameterCount ctorOk < priv.MaxParameterCount ↔
          ∃ a, a < priv.MaxParameterCount ∧ ctorOk a = true)
      ∧ (priv.ProvideOverloadDiagnostic isAbstract isDefaultConstructible ctorOk = none ↔
          priv.Constructible isAbstract isDefaultConstructible ctorOk = true)
      ∧ (priv.Constructible isAbstract isDefaultConstructible ctorOk = false →
          priv.ProvideOverloadDiagnostic isAbstract isDefaultConstructible ctorOk =
            some "Use Provide<T>(Builder<T>, Scope) instead for interface or complex constructible type.") := by
  intro isAbstract isDefaultConstructible ctorOk
  refine ⟨?_, priv.gcpc_lt_iff ctorOk, ?_, ?_⟩
  · simp [priv.Constructible, Bool.and_eq_true, Bool.or_eq_true, decide_eq_true_iff,
      Bool.not_eq_true']
  · by_cases h : priv.Constructible isAbstract isDefaultConstructible ctorOk = true
    · simp [priv.ProvideOverloadDiagnostic, h]
    · simp [priv.ProvideOverloadDiagnostic, h]
  · intro h
    simp [priv.ProvideOverloadDiagnostic, h]

set_option maxRecDepth 4000 in
theorem constructible_characterization_witness :
    priv.ProvideOverloadDiagnostic false false (fun _ => false) =
      some "Use Provide<T>(Builder<T>, Scope) instead for interface or complex constructible type." :=
  (constructible_characterization false false (fun _ => false)).2.2.2 (by decide)

/-- TypeKey models std::type_index: a stable comparable per-type identity. -/
abbrev TypeKey := Nat

/-- Context::Scope. -/
inductive Scope where
  | Local
  | Singleton
deriving DecidableEq

/-- One element of the deduced constructor descriptor
(priv::ConstructorDescriptor<T>): the parameter's type key and whether the
parameter is a pointer type (Context::BuildParameter resolves pointer
parameters through the nullable Require<T*> and all other parameters
through the throwing reference-form Require<T>). -/
structure Param where
  key : TypeKey
  isPtr : Bool
deriving DecidableEq

/-- Compile-time facts about one type, as the container consumes them:
priv::Constructible<T>::value, the deduced constructor parameter list used
by Context::As<T>, and typeid(T).name() as used in the Require<T&> error
message. -/
structure TypeMeta where
  constructible : Bool
  params : List Param
  name : String

/-- A Context::Builder<T> closure.  null models a caller-supplied builder
that returns an empty std::unique_ptr; fresh models a caller-supplied
builder that constructs one new object; auto k models the closure built by
Context::As<T> (resolve every deduced constructor parameter through the
given container, then make_unique a new T). -/
inductive BuilderSpec where
  | null
  | fresh
  | auto (k : TypeKey)
deriving DecidableEq

/-- Static environment of the program: per-type compile-time metadata, plus
evalOrder, which models the ISO C++17 rule that the arguments of the call
std::tuple_cat(BuildParameter<...>()...) in Context::BuildParameters
(Context.hpp lines 279-283) are evaluated in an unspecified
(implementation-chosen) order, indeterminately sequenced with respect to
one another: evalOrder is the permutation of the declared parameter list in
which the chosen implementation actually evaluates the arguments.  An
implementation evaluating strictly left-to-right has evalOrder l = l; a
right-to-left implementation (common in practice) has evalOrder reverse the
list. -/
structure Env where
  meta : TypeKey → TypeMeta
  evalOrder : List Param → List Param

/-- Context::Instance<T> (an InstanceEntry): the owned handle
(std::unique_ptr<T>, none models null) and the scope tag stored in Base. -/
structure Instance where
  Handle : Option Nat
  scope : Scope
deriving DecidableEq

/-- Context::Factory<T> (a BuilderEntry): the stored builder closure and
the scope tag stored in Base. -/
structure Factory where
  Builder : BuilderSpec
  scope : Scope
deriving DecidableEq

/-- Gx::Context: the two type-indexed registries.  The C++ m_parent pointer
is set during clone-construction and never consulted afterwards, so it is
not part of the model. -/
structure Context where
  m_instances : TypeKey → Option Instance
  m_factories : TypeKey → Option Factory

/-- Instance<T>::Clone (Context.hpp lines 244-250): a Local instance clones
to null (skipped by the child); otherwise the clone wraps the same raw
pointer Handle.get() in a new std::unique_ptr, with the same scope tag, so
the cloned slot holds the same underlying value id. -/
def Instance.Clone (i : Instance) : Option Instance :=
  if i.scope = Scope.Local then none else some ⟨i.Handle, i.scope⟩

/-- Factory<T>::Clone (Context.hpp lines 259-265): a Singleton factory
clones to null (skipped by the child); otherwise the builder closure is
copied with its scope tag. -/
def Factory.Clone (f : Factory) : Option Factory :=
  if f.scope = Scope.Singleton then none else some ⟨f.Builder, f.scope⟩

/-- Context::CreateScope / the private Context(Context&) clone constructor
(Context.hpp lines 205-227): every parent entry is cloned; entries whose
Clone returns null are skipped. -/
def CreateScope (c : Context) : Context :=
  { m_instances := fun k => (c.m_instances k).bind Instance.Clone
    m_factories := fun k => (c.m_factories k).bind Factory.Clone }

/-- Effect of the Context destructor on the slot for k: ~unique_ptr deletes
the managed pointer, so a non-null Handle in the slot releases (frees) its
value id.  Returns the id released by that slot, if any. -/
def destroyReleases (c : Context) (k : TypeKey) : Option Nat :=
  (c.m_instances k).bind Instance.Handle

/-- Ghost trace events: param k marks the start of resolving a constructor
parameter of type k inside Context::BuildParameter; built id marks a
completed construction (make_unique) of the object with that id. -/
inductive Event where
  | param (k : TypeKey)
  | built (id : Nat)
deriving DecidableEq

/-- Dynamic state threaded through execution: the current container, the
allocator counter for fresh object ids, and the ghost trace. -/
structure St where
  ctx : Context
  nextId : Nat
  trace : List Event

/-- Unordered-map assignment m_instances[k] = e. -/
def setInst (st : St) (k : TypeKey) (e : Instance) : St :=
  { st with ctx := { st.ctx with
      m_instances := fun q => if q = k then some e else st.ctx.m_instances q } }

/-- Unordered-map assignment m_factories[k] = f. -/
def setFac (st : St) (k : TypeKey) (f : Factory) : St :=
  { st with ctx := { st.ctx with
      m_factories := fun q => if q = k then some f else st.ctx.m_factories q } }

/-- make_unique: allocate a fresh object id and record its construction. -/
def alloc (st : St) : St :=
  { st with nextId := st.nextId + 1, trace := st.trace ++ [Event.built st.nextId] }

/-- Append a ghost event. -/
def addEvent (st : St) (e : Event) : St :=
  { st with trace := st.trace ++ [e] }

/-- Result of running a container operation: normal return (ok), a thrown
std::runtime_error (raised, with the state at the throw, since the C++ maps
keep their mutations when an exception propagates), or fuel exhaustion
(diverge), which models the unbounded recursion the C++ exhibits on cyclic
dependency graphs. -/
inductive Res where
  | ok (v : Option Nat) (st : St)
  | raised (msg : String) (st : St)
  | diverge

def Res.isRaised : Res → Bool
  | .raised _ _ => true
  | _ => false

instance : Inhabited St :=
  ⟨⟨⟨fun _ => none, fun _ => none⟩, 0, []⟩⟩

def Res.stateOf : Res → St
  | .ok _ st => st
  | .raised _ st => st
  | .diverge => default

def Res.valueOf : Res → Option Nat
  | .ok v _ => v
  | _ => none

/-- The message of the std::runtime_error thrown by reference-form
Require<T> (Context.hpp line 202). -/
def errMsg (env : Env) (k : TypeKey) : String :=
  (env.meta k).name ++ " is not constructible and not provided within the current context."

/-- The container operations (one inductive so the interpreter is a single
structural recursion on fuel): the nullable Require<T*>, the reference-form
Require<T&>, Provide<T>(builder, scope), invocation of a builder closure,
resolution of one constructor parameter (Context::BuildParameter), and
resolution of a parameter sequence (Context::BuildParameters, already in
the implementation-chosen evaluation order). -/
inductive Op where
  | reqNull (k : TypeKey)
  | reqRef (k : TypeKey)
  | prov (k : TypeKey) (b : BuilderSpec) (s : Scope)
  | runB (b : BuilderSpec)
  | bParam (p : Param)
  | bParams (ps : List Param)

/-- The fuel-indexed interpreter, a direct transcription of Context.hpp:

reqNull k (Require<T*>, lines 167-193): if m_instances holds k, return its
Handle; else if m_factories holds k, invoke the factory's builder on the
current container, store the result as a Local-scoped Instance in
m_instances regardless of the factory's declared scope (line 180), and
return the stored handle; else if Constructible, Provide<T>() (which uses
As<T> and the default Scope::Local) and retry once; else return null.

reqRef k (Require<T&>, lines 195-203): call the nullable form; on null
throw the runtime_error naming T, else return the value.

prov k b s (Provide(Builder<T>, Scope), lines 148-156): invoke the builder
eagerly on the registering container, then store the Instance (tagged s)
and then the Factory (tagged s).

runB (As<T> and caller-supplied builders): null returns an empty handle;
fresh constructs one new object; auto k resolves the deduced parameters of
k in the implementation-chosen argument-evaluation order and then
constructs a new object (make_unique, line 163).

bParam p (BuildParameter, lines 270-277): pointer parameters go through the
nullable Require, all others through the throwing reference form.

bParams ps (BuildParameters, lines 279-290): resolve each parameter of the
already-ordered sequence in turn, each completing before the next starts
(arguments are indeterminately sequenced: non-interleaved). -/
def exec (env : Env) : Nat → Op → St → Res
  | 0, _, _ => .diverge
  | fuel + 1, op, st =>
    match op with
    | .reqNull k =>
      match st.ctx.m_instances k with
      | some inst => .ok inst.Handle st
      | none =>
        match st.ctx.m_factories k with
        | some f =>
          match exec env fuel (.runB f.Builder) st with
          | .ok v st1 => .ok v (setInst st1 k ⟨v, Scope.Local⟩)
          | .raised m st1 => .raised m st1
          | .diverge => .diverge
        | none =>
          if (env.meta k).constructible then
            match exec env fuel (.prov k (.auto k) Scope.Local) st with
            | .ok _ st1 => exec env fuel (.reqNull k) st1
            | .raised m st1 => .raised m st1
            | .diverge => .diverge
          else .ok none st
    | .reqRef k =>
      match exec env fuel (.reqNull k) st with
      | .ok (some v) st1 => .ok (some v) st1
      | .ok none st1 => .raised (errMsg env k) st1
      | .raised m st1 => .raised m st1
      | .diverge => .diverge
    | .prov k b s =>
      match exec env fuel (.runB b) st with
      | .ok v st1 => .ok none (setFac (setInst st1 k ⟨v, s⟩) k ⟨b, s⟩)
      | .raised m st1 => .raised m st1
      | .diverge => .diverge
    | .runB b =>
      match b with
      | .null => .ok none st
      | .fresh => .ok (some st.nextId) (alloc st)
      | .auto k =>
        match exec env fuel (.bParams (env.evalOrder (env.meta k).params)) st with
        | .ok _ st1 => .ok (some st1.nextId) (alloc st1)
        | .raised m st1 => .raised m st1
        | .diverge => .diverge
    | .bParam p =>
      if p.isPtr then exec env fuel (.reqNull p.key) (addEvent st (.param p.key))
      else exec env fuel (.reqRef p.key) (addEvent st (.param p.key))
    | .bParams ps =>
      match ps with
      | [] => .ok none st
      | p :: rest =>
        match exec env fuel (.bParam p) st with
        | .ok _ st1 => exec env fuel (.bParams rest) st1
        | .raised m st1 => .raised m st1
        | .diverge => .diverge

/-- Nullable Require<T*> on the container in st. -/
def RequirePtr (env : Env) (fuel : Nat) (k : TypeKey) (st : St) : Res :=
  exec env fuel (.reqNull k) st

/-- Reference-form Require<T&> on the container in st. -/
def RequireRef (env : Env) (fuel : Nat) (k : TypeKey) (st : St) : Res :=
  exec env fuel (.reqRef k) st

/-- Provide<T>(builder, scope) on the container in st. -/
def Provide (env : Env) (fuel : Nat) (k : TypeKey) (b : BuilderSpec) (s : Scope)
    (st : St) : Res :=
  exec env fuel (.prov k b s) st

/-- Invocation of a builder closure on the container in st. -/
def RunBuilder (env : Env) (fuel : Nat) (b : BuilderSpec) (st : St) : Res :=
  exec env fuel (.runB b) st

/-- Context::BuildParameter for a single deduced parameter. -/
def BuildParam (env : Env) (fuel : Nat) (p : Param) (st : St) : Res :=
  exec env fuel (.bParam p) st

/-- Context::BuildParameters over an already-ordered parameter sequence. -/
def BuildParams (env : Env) (fuel : Nat) (ps : List Param) (st : St) : Res :=
  exec env fuel (.bParams ps) st

theorem setInst_trace (st : St) (k : TypeKey) (e : Instance) :
    (setInst st k e).trace = st.trace := rfl

theorem setFac_trace (st : St) (k : TypeKey) (f : Factory) :
    (setFac st k f).trace = st.trace := rfl

theorem addEvent_trace (st : St) (e : Event) :
    (addEvent st e).trace = st.trace ++ [e] := rfl

theorem alloc_trace (st : St) :
    (alloc st).trace = st.trace ++ [Event.built st.nextId] := rfl

theorem setInst_self (st : St) (k : TypeKey) (e : Instance) :
    (setInst st k e).ctx.m_instances k = some e := by
  simp [setInst]

theorem setFac_self (st : St) (k : TypeKey) (f : Factory) :
    (setFac st k f).ctx.m_factories k = some f := by
  simp [setFac]

theorem setFac_instances (st : St) (k : TypeKey) (f : Factory) :
    (setFac st k f).ctx.m_instances = st.ctx.m_instances := rfl

/-- Every successfully completing operation only appends to the ghost
trace: the trace at entry is a prefix of the trace at exit. -/
theorem exec_trace_mono (env : Env) (fuel : Nat) :
    ∀ op st v st', exec env fuel op st = .ok v st' → st.trace <+: st'.trace := by
  induction fuel with
  | zero =>
    intro op st v st' h
    simp [exec] at h
  | succ n ih =>
    intro op st v st' h
    cases op with
    | reqNull k =>
      simp only [exec] at h
      split at h
      · cases h; exact List.prefix_refl _
      · split at h
        · split at h
          · cases h
            have hpre := ih _ _ _ _ (by assumption)
            simpa [setInst_trace] using hpre
          · exact absurd h (by simp)
          · exact absurd h (by simp)
        · split at h
          · split at h
            · rename_i hprov
              exact (ih _ _ _ _ hprov).trans (ih _ _ _ _ h)
            · exact absurd h (by simp)
            · exact absurd h (by simp)
          · cases h; exact List.prefix_refl _
    | reqRef k =>
      simp only [exec] at h
      split at h
      · cases h; exact ih _ _ _ _ (by assumption)
      · exact absurd h (by simp)
      · exact absurd h (by simp)
      · exact absurd h (by simp)
    | prov k b s =>
      simp only [exec] at h
      split at h
      · cases h
        have hpre := ih _ _ _ _ (by assumption)
        simpa [setFac_trace, setInst_trace] using hpre
      · exact absurd h (by simp)
      · exact absurd h (by simp)
    | runB b =>
      simp only [exec] at h
      cases b with
      | null => cases h; exact List.prefix_refl _
      | fresh => cases h; exact List.prefix_append _ _
      | auto k =>
        simp only at h
        split at h
        · cases h
          have hpre := ih _ _ _ _ (by assumption)
          exact hpre.trans (List.prefix_append _ _)
        · exact absurd h (by simp)
        · exact absurd h (by simp)
    | bParam p =>
      simp only [exec] at h
      split at h
      · have hpre := ih _ _ _ _ h
        exact (List.prefix_append _ _).trans (by simpa [addEvent_trace] using hpre)
      · have hpre := ih _ _ _ _ h
        exact (List.prefix_append _ _).trans (by simpa [addEvent_trace] using hpre)
    | bParams ps =>
      simp only [exec] at h
      cases ps with
      | nil => cases h; exact List.prefix_refl _
      | cons p rest =>
        simp only at h
        split at h
        · rename_i hp
          exact (ih _ _ _ _ hp).trans (ih _ _ _ _ h)
        · exact absurd h (by simp)
        · exact absurd h (by simp)

/-- Shape of a successful Provide: exactly one builder invocation, whose
output state is extended by the Instance store and then the Factory
store. -/
theorem prov_post (env : Env) (fuel : Nat) (k : TypeKey) (b : BuilderSpec) (s : Scope)
    (st : St) (v : Option Nat) (st' : St) :
    exec env (fuel + 1) (.prov k b s) st = .ok v st' →
    v = none ∧ ∃ w st1, exec env fuel (.runB b) st = .ok w st1 ∧
      st' = setFac (setInst st1 k ⟨w, s⟩) k ⟨b, s⟩ := by
  intro h
  simp only [exec] at h
  split at h
  · cases h
    exact ⟨rfl, _, _, by assumption, rfl⟩
  · exact absurd h (by simp)
  · exact absurd h (by simp)

/-- Post-state of a successful nullable Require<T*>: either the container
now caches an InstanceEntry for k whose Handle is the returned value, or
the call returned null with the state untouched because the container held
neither entry and the type is not Constructible. -/
theorem reqNull_post (env : Env) (fuel : Nat) :
    ∀ k st v st', exec env fuel (.reqNull k) st = .ok v st' →
      (∃ e : Instance, st'.ctx.m_instances k = some e ∧ e.Handle = v) ∨
      (v = none ∧ st' = st ∧ st.ctx.m_instances k = none ∧
        st.ctx.m_factories k = none ∧ (env.meta k).constructible = false) := by
  induction fuel with
  | zero =>
    intro k st v st' h
    simp [exec] at h
  | succ n ih =>
    intro k st v st' h
    simp only [exec] at h
    split at h
    · rename_i inst hI
      cases h
      exact Or.inl ⟨inst, hI, rfl⟩
    · rename_i hI
      split at h
      · split at h
        · cases h
          exact Or.inl ⟨⟨v, Scope.Local⟩, setInst_self _ _ _, rfl⟩
        · exact absurd h (by simp)
        · exact absurd h (by simp)
      · rename_i hF
        split at h
        · rename_i hC
          split at h
          · rename_i w st1 hprov
            rcases ih k st1 v st' h with hl | hr
            · exact Or.inl hl
            · rcases n with _ | m
              · simp [exec] at hprov
              rcases prov_post env m k _ _ st w st1 hprov with ⟨_, w', st2, _, hst1⟩
              rcases hr with ⟨_, hst', hnone, _⟩
              rw [hst1] at hnone
              rw [show (setFac (setInst st2 k ⟨w', Scope.Local⟩) k
                ⟨BuilderSpec.auto k, Scope.Local⟩).ctx.m_instances
                  = (setInst st2 k ⟨w', Scope.Local⟩).ctx.m_instances from rfl] at hnone
              rw [setInst_self] at hnone
              cases hnone
          · exact absurd h (by simp)
          · exact absurd h (by simp)
        · rename_i hC
          cases h
          exact Or.inr ⟨rfl, rfl, hI, hF, by simpa using hC⟩

/-- The empty container state. -/
def stEmpty : St :=
  ⟨⟨fun _ => none, fun _ => none⟩, 0, []⟩

/-- Environment in which every type is Constructible with a 0-ary deduced
constructor; argument evaluation is left-to-right. -/
def envW8 : Env :=
  ⟨fun _ => ⟨true, [], "T"⟩, fun l => l⟩

/-- Environment in which no type is Constructible. -/
def envTriv : Env :=
  ⟨fun _ => ⟨false, [], "T"⟩, fun l => l⟩

/-- Environment in which type 0 is Constructible (0-ary) and type 1 is
not. -/
def envMixed : Env :=
  ⟨fun k => if k = 0 then ⟨true, [], "T0"⟩ else ⟨false, [], "T1"⟩, fun l => l⟩

/-- State holding only a Singleton-scoped factory for type 0. -/
def stFacS : St :=
  ⟨⟨fun _ => none,
    fun k => if k = 0 then some ⟨BuilderSpec.fresh, Scope.Singleton⟩ else none⟩, 0, []⟩

/-- C1: the three resolution paths of nullable Require<T*> when no
InstanceEntry is cached.  With a BuilderEntry present, the builder is
invoked on the current container and its result is stored as a
Local-scoped InstanceEntry in the current container regardless of the
BuilderEntry's declared scope, and the stored handle is returned.  With
neither entry and a Constructible type, Provide<T>() (As<T> auto-wiring,
default Local scope) runs once and the retry returns the freshly cached
handle.  With neither entry and a non-Constructible type, the call returns
an absent handle and leaves the state untouched. -/
theorem requirePtr_resolution_paths :
    ∀ (env : Env) (fuel : Nat) (k : TypeKey) (st : St),
      (∀ f v st1,
        st.ctx.m_instances k = none →
        st.ctx.m_factories k = some f →
        RunBuilder env fuel f.Builder st = .ok v st1 →
        RequirePtr env (fuel + 1) k st = .ok v (setInst st1 k ⟨v, Scope.Local⟩))
      ∧ ((env.meta k).constructible = true →
        st.ctx.m_instances k = none →
        st.ctx.m_factories k = none →
        ∀ w st1, RunBuilder env fuel (BuilderSpec.auto k) st = .ok w st1 →
        RequirePtr env (fuel + 2) k st =
          .ok w (setFac (setInst st1 k ⟨w, Scope.Local⟩) k
            ⟨BuilderSpec.auto k, Scope.Local⟩))
      ∧ ((env.meta k).constructible = false →
        st.ctx.m_instances k = none →
        st.ctx.m_factories k = none →
        RequirePtr env (fuel + 1) k st = .ok none st) := by
  intro env fuel k st
  refine ⟨?_, ?_, ?_⟩
  · intro f v st1 hI hF hR
    simp only [RunBuilder] at hR
    simp only [RequirePtr, exec, hI, hF, hR]
  · intro hC hI hF w st1 hR
    simp only [RunBuilder] at hR
    have hs : (setFac (setInst st1 k ⟨w, Scope.Local⟩) k
        ⟨BuilderSpec.auto k, Scope.Local⟩).ctx.m_instances k =
        some ⟨w, Scope.Local⟩ := setInst_self st1 k _
    simp only [RequirePtr]
    show exec env (fuel + 1 + 1) (.reqNull k) st = _
    simp only [exec, hI, hF, hC, if_true, hR, hs]
  · intro hC hI hF
    simp [RequirePtr, exec, hI, hF, hC]

theorem requirePtr_resolution_paths_witness :
    (RequirePtr envMixed 2 0 stFacS =
      .ok (some 0) (setInst (alloc stFacS) 0 ⟨some 0, Scope.Local⟩))
    ∧ (RequirePtr envMixed 4 0 stEmpty =
      .ok (some 0) (setFac (setInst (alloc stEmpty) 0 ⟨some 0, Scope.Local⟩) 0
        ⟨BuilderSpec.auto 0, Scope.Local⟩))
    ∧ (RequirePtr envMixed 1 1 stEmpty = .ok none stEmpty) :=
  ⟨(requirePtr_resolution_paths envMixed 1 0 stFacS).1
      ⟨BuilderSpec.fresh, Scope.Singleton⟩ (some 0) (alloc stFacS) rfl rfl rfl,
    (requirePtr_resolution_paths envMixed 2 0 stEmpty).2.1 rfl rfl rfl
      (some 0) (alloc stEmpty) rfl,
    (requirePtr_resolution_paths envMixed 0 1 stEmpty).2.2 rfl rfl rfl⟩

/-- C4: Provide(builder, scope) invokes the supplied builder exactly once,
immediately and on the registering container, and stores under the type's
key both the InstanceEntry holding the build result and the BuilderEntry
holding the builder, each tagged with the declared scope; the only trace
growth is the builder's own single run. -/
theorem provide_eager_registration :
    ∀ (env : Env) (fuel : Nat) (k : TypeKey) (b : BuilderSpec) (s : Scope) (st : St)
      (v : Option Nat) (st1 : St),
      RunBuilder env fuel b st = .ok v st1 →
      Provide env (fuel + 1) k b s st =
        .ok none (setFac (setInst st1 k ⟨v, s⟩) k ⟨b, s⟩)
      ∧ (setFac (setInst st1 k ⟨v, s⟩) k ⟨b, s⟩).ctx.m_instances k = some ⟨v, s⟩
      ∧ (setFac (setInst st1 k ⟨v, s⟩) k ⟨b, s⟩).ctx.m_factories k = some ⟨b, s⟩
      ∧ (setFac (setInst st1 k ⟨v, s⟩) k ⟨b, s⟩).trace = st1.trace := by
  intro env fuel k b s st v st1 hR
  simp only [RunBuilder] at hR
  exact ⟨by simp only [Provide, exec, hR], setInst_self st1 k _, setFac_self _ k _, rfl⟩

theorem provide_eager_registration_witness :
    Provide envTriv 2 0 BuilderSpec.fresh Scope.Singleton stEmpty =
      .ok none (setFac (setInst (alloc stEmpty) 0 ⟨some 0, Scope.Singleton⟩) 0
        ⟨BuilderSpec.fresh, Scope.Singleton⟩)
    ∧ (setFac (setInst (alloc stEmpty) 0 ⟨some 0, Scope.Singleton⟩) 0
        ⟨BuilderSpec.fresh, Scope.Singleton⟩).ctx.m_instances 0 =
        some ⟨some 0, Scope.Singleton⟩
    ∧ (setFac (setInst (alloc stEmpty) 0 ⟨some 0, Scope.Singleton⟩) 0
        ⟨BuilderSpec.fresh, Scope.Singleton⟩).ctx.m_factories 0 =
        some ⟨BuilderSpec.fresh, Scope.Singleton⟩
    ∧ (setFac (setInst (alloc stEmpty) 0 ⟨some 0, Scope.Singleton⟩) 0
        ⟨BuilderSpec.fresh, Scope.Singleton⟩).trace = (alloc stEmpty).trace :=
  provide_eager_registration envTriv 1 0 BuilderSpec.fresh Scope.Singleton stEmpty
    (some 0) (alloc stEmpty) rfl

/-- C8: identity-stable caching.  A second nullable Require<T*> after a
successful one, with no intervening Provide, returns the very same handle
and leaves the state untouched; and as soon as an InstanceEntry for the key
exists, resolution returns the cached handle without invoking any builder
(the state, including the allocator and trace, is unchanged). -/
theorem require_identity_stable_caching :
    ∀ (env : Env) (fuel1 fuel2 : Nat) (k : TypeKey) (st : St),
      (∀ v st1, RequirePtr env fuel1 k st = .ok v st1 →
        RequirePtr env (fuel2 + 1) k st1 = .ok v st1)
      ∧ (∀ e, st.ctx.m_instances k = some e →
        RequirePtr env (fuel2 + 1) k st = .ok e.Handle st) := by
  intro env fuel1 fuel2 k st
  constructor
  · intro v st1 h
    rcases reqNull_post env fuel1 k st v st1 h with ⟨e, hE, hH⟩ | ⟨hv, hst, hI, hF, hC⟩
    · subst hH
      simp only [RequirePtr, exec, hE]
    · subst hv; subst hst
      simp [RequirePtr, exec, hI, hF, hC]
  · intro e hE
    simp only [RequirePtr, exec, hE]

theorem require_identity_stable_caching_witness :
    RequirePtr envW8 6 0 (Res.stateOf (RequirePtr envW8 5 0 stEmpty)) =
      .ok (some 0) (Res.stateOf (RequirePtr envW8 5 0 stEmpty)) :=
  (require_identity_stable_caching envW8 5 5 0 stEmpty).1 (some 0)
    (Res.stateOf (RequirePtr envW8 5 0 stEmpty)) (by rfl)

/-- C10: a caller-supplied builder returning an empty instance.  Provide
stores the null result as the cached InstanceEntry (and keeps the
BuilderEntry); afterwards nullable Require<T*> returns absent while leaving
the state untouched (so the registered builder is never re-invoked), and
reference-form Require<T> raises the error naming the type. -/
theorem null_instance_caching :
    ∀ (env : Env) (fuel fuel2 : Nat) (k : TypeKey) (b : BuilderSpec) (s : Scope)
      (st st1 : St),
      RunBuilder env fuel b st = .ok none st1 →
      ∀ st2, st2 = setFac (setInst st1 k ⟨none, s⟩) k ⟨b, s⟩ →
        Provide env (fuel + 1) k b s st = .ok none st2
        ∧ st2.ctx.m_instances k = some ⟨none, s⟩
        ∧ st2.ctx.m_factories k = some ⟨b, s⟩
        ∧ RequirePtr env (fuel2 + 1) k st2 = .ok none st2
        ∧ RequireRef env (fuel2 + 2) k st2 = .raised (errMsg env k) st2 := by
  intro env fuel fuel2 k b s st st1 hR st2 hst2
  subst hst2
  simp only [RunBuilder] at hR
  have hs : (setFac (setInst st1 k ⟨none, s⟩) k ⟨b, s⟩).ctx.m_instances k =
      some ⟨none, s⟩ := setInst_self st1 k _
  have h4 : RequirePtr env (fuel2 + 1) k
      (setFac (setInst st1 k ⟨none, s⟩) k ⟨b, s⟩) =
      .ok none (setFac (setInst st1 k ⟨none, s⟩) k ⟨b, s⟩) := by
    simp only [RequirePtr, exec, hs]
  refine ⟨by simp only [Provide, exec, hR], hs, setFac_self _ k _, h4, ?_⟩
  simp only [RequireRef]
  show exec env (fuel2 + 1 + 1) (.reqRef k) _ = _
  simp only [exec, hs]

theorem null_instance_caching_witness :
    Provide envTriv 2 0 BuilderSpec.null Scope.Local stEmpty =
      .ok none (setFac (setInst stEmpty 0 ⟨none, Scope.Local⟩) 0
        ⟨BuilderSpec.null, Scope.Local⟩)
    ∧ (setFac (setInst stEmpty 0 ⟨none, Scope.Local⟩) 0
        ⟨BuilderSpec.null, Scope.Local⟩).ctx.m_instances 0 = some ⟨none, Scope.Local⟩
    ∧ (setFac (setInst stEmpty 0 ⟨none, Scope.Local⟩) 0
        ⟨BuilderSpec.null, Scope.Local⟩).ctx.m_factories 0 =
        some ⟨BuilderSpec.null, Scope.Local⟩
    ∧ RequirePtr envTriv 2 0 (setFac (setInst stEmpty 0 ⟨none, Scope.Local⟩) 0
        ⟨BuilderSpec.null, Scope.Local⟩) =
        .ok none (setFac (setInst stEmpty 0 ⟨none, Scope.Local⟩) 0
          ⟨BuilderSpec.null, Scope.Local⟩)
    ∧ RequireRef envTriv 3 0 (setFac (setInst stEmpty 0 ⟨none, Scope.Local⟩) 0
        ⟨BuilderSpec.null, Scope.Local⟩) =
        .raised (errMsg envTriv 0) (setFac (setInst stEmpty 0 ⟨none, Scope.Local⟩) 0
          ⟨BuilderSpec.null, Scope.Local⟩) :=
  null_instance_caching envTriv 1 1 0 BuilderSpec.null Scope.Local stEmpty stEmpty
    rfl _ rfl

/-- C2: what CreateScope copies into the child, per entry kind and scope,
and the resulting behavior: a Local BuilderEntry is copied unchanged
(independently rebuildable in the child), a Singleton BuilderEntry is not
copied, a Local InstanceEntry is not copied, a Singleton InstanceEntry is
copied with the same underlying value id (an alias); hence nullable
Require in the child returns a handle identity-equal to the parent's
instance for a Singleton-registered type, and builds a distinct fresh
instance for a Local-registered type never resolved in the child.  The
hypothesis i2 < st.nextId records that the parent's instance id was handed
out by the allocator before the child resolves. -/
theorem createScope_inheritance :
    ∀ (c : Context),
      (∀ k : TypeKey,
        (∀ b, c.m_factories k = some ⟨b, Scope.Local⟩ →
          (CreateScope c).m_factories k = some ⟨b, Scope.Local⟩)
        ∧ (∀ b, c.m_factories k = some ⟨b, Scope.Singleton⟩ →
          (CreateScope c).m_factories k = none)
        ∧ (∀ h, c.m_instances k = some ⟨h, Scope.Local⟩ →
          (CreateScope c).m_instances k = none)
        ∧ (∀ h, c.m_instances k = some ⟨h, Scope.Singleton⟩ →
          (CreateScope c).m_instances k = some ⟨h, Scope.Singleton⟩))
      ∧ (∀ (env : Env) (fuel : Nat) (st : St) (k1 k2 : TypeKey) (i1 i2 : Nat),
          st.ctx = CreateScope c →
          c.m_instances k1 = some ⟨some i1, Scope.Singleton⟩ →
          c.m_instances k2 = some ⟨some i2, Scope.Local⟩ →
          c.m_factories k2 = some ⟨BuilderSpec.fresh, Scope.Local⟩ →
          i2 < st.nextId →
          RequirePtr env (fuel + 1) k1 st = .ok (some i1) st
          ∧ RequirePtr env (fuel + 2) k2 st =
              .ok (some st.nextId) (setInst (alloc st) k2 ⟨some st.nextId, Scope.Local⟩)
          ∧ st.nextId ≠ i2) := by
  intro c
  constructor
  · intro k
    refine ⟨?_, ?_, ?_, ?_⟩
    · intro b hb; simp [CreateScope, hb, Factory.Clone]
    · intro b hb; simp [CreateScope, hb, Factory.Clone]
    · intro h hh; simp [CreateScope, hh, Instance.Clone]
    · intro h hh; simp [CreateScope, hh, Instance.Clone]
  · intro env fuel st k1 k2 i1 i2 hctx h1 h2 hf2 hlt
    have hI1 : st.ctx.m_instances k1 = some ⟨some i1, Scope.Singleton⟩ := by
      rw [hctx]; simp [CreateScope, h1, Instance.Clone]
    have hI2 : st.ctx.m_instances k2 = none := by
      rw [hctx]; simp [CreateScope, h2, Instance.Clone]
    have hF2 : st.ctx.m_factories k2 = some ⟨BuilderSpec.fresh, Scope.Local⟩ := by
      rw [hctx]; simp [CreateScope, hf2, Factory.Clone]
    refine ⟨?_, ?_, by omega⟩
    · simp [RequirePtr, exec, hI1]
    · show exec env (fuel + 1 + 1) (.reqNull k2) st = _
      simp [exec, hI2, hF2]

/-- Parent container for the C2 witness: type 0 registered Singleton with
instance id 5, type 1 registered Local with instance id 6 and a fresh
builder. -/
def cW : Context :=
  ⟨fun k => if k = 0 then some ⟨some 5, Scope.Singleton⟩
    else if k = 1 then some ⟨some 6, Scope.Local⟩ else none,
   fun k => if k = 1 then some ⟨BuilderSpec.fresh, Scope.Local⟩ else none⟩

/-- Child scope of cW, allocator already past ids 5 and 6. -/
def stW2 : St :=
  ⟨CreateScope cW, 7, []⟩

theorem createScope_inheritance_witness :
    (CreateScope cW).m_factories 1 = some ⟨BuilderSpec.fresh, Scope.Local⟩
    ∧ (CreateScope cW).m_instances 1 = none
    ∧ (CreateScope cW).m_instances 0 = some ⟨some 5, Scope.Singleton⟩
    ∧ RequirePtr envTriv 1 0 stW2 = .ok (some 5) stW2
    ∧ RequirePtr envTriv 2 1 stW2 = .ok (some 7) (setInst (alloc stW2) 1 ⟨some 7, Scope.Local⟩)
    ∧ (7 : Nat) ≠ 6 :=
  ⟨(createScope_inheritance cW).1 1 |>.1 BuilderSpec.fresh rfl,
    (createScope_inheritance cW).1 1 |>.2.2.1 (some 6) rfl,
    (createScope_inheritance cW).1 0 |>.2.2.2 (some 5) rfl,
    ((createScope_inheritance cW).2 envTriv 0 stW2 0 1 5 6 rfl rfl rfl rfl (by decide)).1,
    ((createScope_inheritance cW).2 envTriv 0 stW2 0 1 5 6 rfl rfl rfl rfl (by decide)).2.1,
    ((createScope_inheritance cW).2 envTriv 0 stW2 0 1 5 6 rfl rfl rfl rfl (by decide)).2.2⟩

/-- Parent container for the ownership analysis: one Singleton
InstanceEntry for type 0 holding the object with id 7. -/
def parentC3 : Context :=
  ⟨fun k => if k = 0 then some ⟨some 7, Scope.Singleton⟩ else none, fun _ => none⟩

/-- C3 is refuted by the code: Instance<T>::Clone (Context.hpp line 249)
wraps the parent's raw pointer Handle.get() in a NEW std::unique_ptr, so
the child produced by CreateScope holds a second owning slot for the same
underlying value: destroying the child releases the inherited Singleton
value (and the parent's destructor releases it again - a double free).
This theorem evaluates the model at the failing input: the cloned slot
holds the same value id 7, and both the child's and the parent's
destructors release id 7. -/
theorem singleton_clone_double_ownership :
    (CreateScope parentC3).m_instances 0 = some ⟨some 7, Scope.Singleton⟩
    ∧ destroyReleases (CreateScope parentC3) 0 = some 7
    ∧ destroyReleases parentC3 0 = some 7 :=
  ⟨rfl, rfl, rfl⟩

/-- Environment for the C5 counterexample: type 0 is Constructible with a
single non-pointer (reference-resolved) constructor parameter of type 1;
type 1 is neither provided nor Constructible (e.g. a class with only
private constructors). -/
def envC5 : Env :=
  ⟨fun k => if k = 0 then ⟨true, [⟨1, false⟩], "A"⟩ else ⟨false, [], "P"⟩, fun l => l⟩

/-- C5 counterexample: the nullable Require<T*> is not raise-free.  On the
empty container, nullable Require for type 0 takes the auto-Provide path;
inside the As-builder, BuildParameter resolves the non-pointer constructor
parameter of type 1 through the reference-form Require, which throws; the
exception propagates out of the nullable call.  Note the escaping error
names the parameter type (key 1), not the requested type. -/
theorem requirePtr_raises_through_builder :
    (RequirePtr envC5 9 0 stEmpty).isRaised = true
    ∧ RequirePtr envC5 9 0 stEmpty =
      .raised (errMsg envC5 1) (Res.stateOf (RequirePtr envC5 9 0 stEmpty)) :=
  ⟨rfl, rfl⟩

/-- C5 (amended): whenever the nullable Require<T*> itself completes
normally, the reference form raises the error naming T exactly on an
absent handle and otherwise returns the very instance the nullable form
yields; when the nullable form propagates a builder exception, the
reference form propagates the same exception (the nullable form adds no
raise of its own, but it is not raise-free).  The second conjunct pins the
error text to the requested type's name. -/
theorem requireRef_requirePtr_correspondence :
    ∀ (env : Env) (fuel : Nat) (k : TypeKey) (st : St),
      (∀ st1, RequirePtr env fuel k st = .ok none st1 →
        RequireRef env (fuel + 1) k st = .raised (errMsg env k) st1)
      ∧ (∀ v st1, RequirePtr env fuel k st = .ok (some v) st1 →
        RequireRef env (fuel + 1) k st = .ok (some v) st1)
      ∧ (∀ m st1, RequirePtr env fuel k st = .raised m st1 →
        RequireRef env (fuel + 1) k st = .raised m st1)
      ∧ (RequirePtr env fuel k st = .diverge →
        RequireRef env (fuel + 1) k st = .diverge)
      ∧ errMsg env k =
        (env.meta k).name ++ " is not constructible and not provided within the current context." := by
  intro env fuel k st
  refine ⟨?_, ?_, ?_, ?_, rfl⟩
  · intro st1 hE
    simp only [RequirePtr] at hE
    simp only [RequireRef, exec, hE]
  · intro v st1 hE
    simp only [RequirePtr] at hE
    simp only [RequireRef, exec, hE]
  · intro m st1 hE
    simp only [RequirePtr] at hE
    simp only [RequireRef, exec, hE]
  · intro hE
    simp only [RequirePtr] at hE
    simp only [RequireRef, exec, hE]

theorem requireRef_requirePtr_correspondence_witness :
    RequireRef envMixed 2 1 stEmpty = .raised (errMsg envMixed 1) stEmpty
    ∧ RequireRef envMixed 5 0 stEmpty =
      .ok (some 0) (Res.stateOf (RequirePtr envMixed 4 0 stEmpty))
    ∧ RequireRef envC5 10 0 stEmpty =
      .raised (errMsg envC5 1) (Res.stateOf (RequirePtr envC5 9 0 stEmpty)) :=
  ⟨(requireRef_requirePtr_correspondence envMixed 1 1 stEmpty).1 stEmpty (by rfl),
    (requireRef_requirePtr_correspondence envMixed 4 0 stEmpty).2.1 0
      (Res.stateOf (RequirePtr envMixed 4 0 stEmpty)) (by rfl),
    (requireRef_requirePtr_correspondence envC5 9 0 stEmpty).2.2.1 (errMsg envC5 1)
      (Res.stateOf (RequirePtr envC5 9 0 stEmpty)) (by rfl)⟩

/-- Environment for the C9 counterexample: type 0 declares constructor
parameters of types 1 then 2 (in that order); the implementation-chosen
argument evaluation order for the tuple_cat call is right-to-left, which
the C++17 rules permit. -/
def envR : Env :=
  ⟨fun k => if k = 0 then ⟨true, [⟨1, true⟩, ⟨2, true⟩], "A"⟩ else ⟨true, [], "B"⟩,
    fun l => l.reverse⟩

/-- C9 counterexample: auto-wired construction need not resolve the
deduced parameters left-to-right.  The arguments of the call
std::tuple_cat(BuildParameter<...>()...) in Context::BuildParameters are
evaluated in an unspecified, implementation-chosen order (they are only
indeterminately sequenced), so with a right-to-left implementation the
ghost trace shows the resolution of the second-declared parameter (type 2)
starting and completing - including its nested construction (built 0) -
before the first-declared parameter (type 1) begins, although the declared
order is [1, 2]. -/
theorem buildParameters_not_left_to_right :
    (envR.meta 0).params.map Param.key = [1, 2]
    ∧ (Res.stateOf (RunBuilder envR 9 (BuilderSpec.auto 0) stEmpty)).trace =
      [Event.param 2, Event.built 0, Event.param 1, Event.built 1, Event.built 2]
    ∧ (RunBuilder envR 9 (BuilderSpec.auto 0) stEmpty).valueOf = some 2 :=
  ⟨rfl, rfl, rfl⟩

/-- C9 (amended): parameter resolution during auto-wired construction is
depth-first and non-interleaved - each parameter in the
implementation-chosen evaluation order is fully resolved (its entire
nested construction and caching completing, visible as trace extension)
before the next parameter's resolution begins - and the As-builder
resolves exactly the declared parameter sequence in that chosen order
before constructing the object; but the chosen order is not required to
be the declared left-to-right order. -/
theorem buildParameters_sequencing :
    ∀ (env : Env) (fuel : Nat),
      (∀ (p : Param) (ps : List Param) (st : St) (v r : Option Nat) (st1 st2 : St),
        BuildParam env fuel p st = .ok v st1 →
        BuildParams env fuel ps st1 = .ok r st2 →
        BuildParams env (fuel + 1) (p :: ps) st = .ok r st2
        ∧ st.trace <+: st1.trace ∧ st1.trace <+: st2.trace)
      ∧ (∀ (k : TypeKey) (st : St) (w : Option Nat) (st1 : St),
        BuildParams env fuel (env.evalOrder (env.meta k).params) st = .ok w st1 →
        RunBuilder env (fuel + 1) (BuilderSpec.auto k) st =
          .ok (some st1.nextId) (alloc st1))
      ∧ (∀ (k : TypeKey) (st : St) (m : String) (st1 : St),
        BuildParams env fuel (env.evalOrder (env.meta k).params) st = .raised m st1 →
        RunBuilder env (fuel + 1) (BuilderSpec.auto k) st = .raised m st1) := by
  intro env fuel
  refine ⟨?_, ?_, ?_⟩
  · intro p ps st v r st1 st2 h1 h2
    refine ⟨?_, exec_trace_mono env fuel _ _ _ _ h1, exec_trace_mono env fuel _ _ _ _ h2⟩
    simp only [BuildParam, BuildParams] at h1 h2 ⊢
    simp only [exec, h1, h2]
  · intro k st w st1 h
    simp only [BuildParams] at h
    simp only [RunBuilder, exec, h]
  · intro k st m st1 h
    simp only [BuildParams] at h
    simp only [RunBuilder, exec, h]

theorem buildParameters_sequencing_witness :
    BuildParams envW8 8 [⟨0, true⟩, ⟨1, true⟩] stEmpty =
      .ok none (Res.stateOf (BuildParams envW8 7 [⟨1, true⟩]
        (Res.stateOf (BuildParam envW8 7 ⟨0, true⟩ stEmpty))))
    ∧ stEmpty.trace <+: (Res.stateOf (BuildParam envW8 7 ⟨0, true⟩ stEmpty)).trace
    ∧ (Res.stateOf (BuildParam envW8 7 ⟨0, true⟩ stEmpty)).trace <+:
      (Res.stateOf (BuildParams envW8 7 [⟨1, true⟩]
        (Res.stateOf (BuildParam envW8 7 ⟨0, true⟩ stEmpty)))).trace :=
  (buildParameters_sequencing envW8 7).1 ⟨0, true⟩ [⟨1, true⟩] stEmpty (some 0) none
    (Res.stateOf (BuildParam envW8 7 ⟨0, true⟩ stEmpty))
    (Res.stateOf (BuildParams envW8 7 [⟨1, true⟩]
      (Res.stateOf (BuildParam envW8 7 ⟨0, true⟩ stEmpty))))
    (by rfl) (by rfl)

end Gx

